import Mathlib

/-!
Verification of the feed/ranking core of the Reddify repository
(a React/Redux Reddit client).

The development shallowly embeds, faithfully to the JavaScript source:
  * `normalizePost` and the raw-record shapes from `src/services/redditAPI.js`;
  * `parseComments` from the same file;
  * the `postsSlice` reducer from `src/features/posts/postsSlice.js`,
    as a pure step function on the slice's state;
  * `countCommentsRecursive` from `src/components/PostDetail.js`;
  * the `sortedPosts` comparators of the client-side `App` revision
    (cases `top`, `rising`, and the clamped sub-expressions of `hot`).

JavaScript numbers are modelled as exact rationals (`ℚ`) where division
occurs and as integers (`ℤ`) elsewhere; absent (`undefined`/`null`) fields
are modelled with `Option`.
-/

namespace Reddit

/-- Media descriptor `post.media.reddit_video` of a raw Reddit post:
the embedded native-video asset with its fallback URL and optional
dimensions/duration (absent fields are `none`). -/
structure RedditVideo where
  fallback_url : String
  width : Option Int
  height : Option Int
  duration : Option Int
deriving DecidableEq, Repr

/-- The raw `post.media` object; `reddit_video` is present only for
Reddit-hosted native videos (`post.media?.reddit_video`). -/
structure Media where
  reddit_video : Option RedditVideo
deriving DecidableEq, Repr

/-- A raw post record as delivered by the external API
(`data.data.children[i].data` in `redditAPI.js`).  The identifier is
optional so that records missing their identity field can be expressed;
numeric and plain-text fields the API always supplies are total. -/
structure RawPost where
  id : Option String
  title : String
  author : String
  subreddit : String
  score : Int
  ups : Int
  downs : Int
  num_comments : Int
  created_utc : Int
  thumbnail : Option String
  url : Option String
  selftext : String
  selftext_html : String
  permalink : String
  is_video : Bool
  media : Option Media
  preview : Option String
deriving DecidableEq, Repr

/-- The canonical normalized post produced by `normalizePost`
(`redditAPI.js` lines 192–237).  The five `video*` fields come from the
spread `...videoData`; a field the JavaScript object literal never set is
`none`. -/
structure Post where
  id : Option String
  title : String
  author : String
  subreddit : String
  score : Int
  ups : Int
  downs : Int
  numComments : Int
  created : Int
  thumbnail : Option String
  url : Option String
  selftext : String
  selftext_html : String
  permalink : String
  is_video : Bool
  videoType : Option String
  videoUrl : Option String
  videoWidth : Option Int
  videoHeight : Option Int
  videoDuration : Option Int
  media : Option Media
  preview : Option String
deriving DecidableEq, Repr

/-- The mutable `videoData` object accumulated at the top of
`normalizePost`; all five fields start absent. -/
structure VideoData where
  videoType : Option String
  videoUrl : Option String
  videoWidth : Option Int
  videoHeight : Option Int
  videoDuration : Option Int
deriving DecidableEq, Repr

/-- The empty `videoData = {}` object. -/
def emptyVideoData : VideoData :=
  { videoType := none, videoUrl := none, videoWidth := none,
    videoHeight := none, videoDuration := none }

/-- Scan for `sub` as a contiguous run inside a character list. -/
def charsInclude (sub : List Char) : List Char → Bool
  | [] => sub.isEmpty
  | c :: rest => sub.isPrefixOf (c :: rest) || charsInclude sub rest

/-- JavaScript `s.includes(sub)`: is `sub` a contiguous substring of `s`? -/
def jsIncludes (s sub : String) : Bool :=
  charsInclude sub.toList s.toList

/-- The `videoData` computation of `normalizePost` (`redditAPI.js`
lines 194–215): Reddit-hosted video first, else URL-pattern matching for
YouTube / Vimeo / `v.redd.it` on the lowercased URL (a truthy `post.url`
is a present, non-empty string). -/
def videoDataOf (post : RawPost) : VideoData :=
  match post.is_video, post.media.bind Media.reddit_video with
  | true, some rv =>
    { emptyVideoData with
        videoUrl := some rv.fallback_url,
        videoWidth := rv.width,
        videoHeight := rv.height,
        videoDuration := rv.duration }
  | _, _ =>
    match post.url with
    | some u =>
      if u = "" then emptyVideoData
      else
        let url := u.toLower
        if jsIncludes url "youtube.com" || jsIncludes url "youtu.be" then
          { emptyVideoData with videoType := some "youtube", videoUrl := some u }
        else if jsIncludes url "vimeo.com" then
          { emptyVideoData with videoType := some "vimeo", videoUrl := some u }
        else if jsIncludes url "v.redd.it" then
          { emptyVideoData with videoType := some "reddit", videoUrl := some u }
        else emptyVideoData
    | none => emptyVideoData

/-- `normalizePost` (`redditAPI.js` lines 192–237): a total map from a
raw record to the canonical `Post`; every field is copied through (the
thumbnail sentinel values `self`/`default` become `null`, and the
`videoData` fields are spread in).  Nothing is ever dropped or thrown. -/
def normalizePost (post : RawPost) : Post :=
  let videoData := videoDataOf post
  { id := post.id,
    title := post.title,
    author := post.author,
    subreddit := post.subreddit,
    score := post.score,
    ups := post.ups,
    downs := post.downs,
    numComments := post.num_comments,
    created := post.created_utc,
    thumbnail :=
      match post.thumbnail with
      | some t => if t = "self" ∨ t = "default" then none else some t
      | none => none,
    url := post.url,
    selftext := post.selftext,
    selftext_html := post.selftext_html,
    permalink := post.permalink,
    is_video := post.is_video,
    videoType := videoData.videoType,
    videoUrl := videoData.videoUrl,
    videoWidth := videoData.videoWidth,
    videoHeight := videoData.videoHeight,
    videoDuration := videoData.videoDuration,
    media := post.media,
    preview := post.preview }

/-- The normalization step of the `fetchPosts` / `loadMorePosts` thunks
(`postsSlice.js` lines 30 and 41): `posts.map(normalizePost)`. -/
def normalizePage (posts : List RawPost) : List Post :=
  posts.map normalizePost

/-- A canonical comment as built by `parseComments` (`redditAPI.js`
lines 124–145): the mapped fields of a `t1` node together with its
recursively parsed `replies` (always a list; empty when the raw node had
no nested payload).  `edited` is `false` or a timestamp in the source,
modelled as an optional timestamp; a deleted author is `none`. -/
inductive Comment where
  | mk (id : String) (author : Option String) (body : String)
      (body_html : String) (created : Int) (score : Int) (ups : Int)
      (downs : Int) (edited : Option Int) (replies : List Comment)

/-- The `replies` field of a canonical comment. -/
def Comment.replies : Comment → List Comment
  | .mk _ _ _ _ _ _ _ _ _ r => r

/-- The `id` field of a canonical comment. -/
def Comment.id : Comment → String
  | .mk i _ _ _ _ _ _ _ _ _ => i

mutual

/-- A raw child entry of a comments listing
(`data[1].data.children[i]` in `redditAPI.js`): a `kind` tag (`t1` for a
comment, `more` for a truncated-branch stub, …) and its `data` payload. -/
inductive RawChild where
  | mk (kind : String) (data : RawCommentData)

/-- The `data` payload of a raw child entry.  `replies` models
`comment.replies`: `none` when the source field is falsy (Reddit sends
the empty string for a leaf), otherwise the nested listing. -/
inductive RawCommentData where
  | mk (id : String) (author : Option String) (body : String)
      (body_html : String) (created_utc : Int) (score : Int) (ups : Int)
      (downs : Int) (edited : Option Int) (replies : Option RawReplies)

/-- A nested replies listing: `comment.replies.data` with its
`children` array. -/
inductive RawReplies where
  | mk (children : List RawChild)

end

/-- The `kind` tag of a raw child entry. -/
def RawChild.kind : RawChild → String
  | .mk k _ => k

/-- The `data` payload of a raw child entry. -/
def RawChild.data : RawChild → RawCommentData
  | .mk _ d => d

/-- The identifier of a raw comment payload. -/
def RawCommentData.id : RawCommentData → String
  | .mk i _ _ _ _ _ _ _ _ _ => i

/-- `parseComments` (`redditAPI.js` lines 124–145): keep the children
whose `kind` is `t1`, and map each retained node to a canonical comment,
recursing into `comment.replies.data.children` when the `replies`
payload is present and producing `[]` otherwise. -/
def parseComments : List RawChild → List Comment
  | [] => []
  | .mk kind (.mk id author body bodyHtml created score ups downs edited replies) :: rest =>
    if kind = "t1" then
      Comment.mk id author body bodyHtml created score ups downs edited
        (match replies with
          | some (.mk children) => parseComments children
          | none => []) :: parseComments rest
    else parseComments rest

/-- The per-node conversion inside `parseComments`'s `map` callback
(`redditAPI.js` lines 127–143), expressed as a standalone function. -/
def parseOneComment (child : RawChild) : Comment :=
  match child with
  | .mk _ (.mk id author body bodyHtml created score ups downs edited replies) =>
    Comment.mk id author body bodyHtml created score ups downs edited
      (match replies with
        | some (.mk children) => parseComments children
        | none => [])

/-- `countCommentsRecursive` (`PostDetail.js` lines 91–99): the count
starts at `commentList.length` (accumulated here as `1` per element) and
the `forEach` adds the recursive count of each element's replies when
that list is non-empty. -/
def countCommentsRecursive : List Comment → Nat
  | [] => 0
  | .mk _ _ _ _ _ _ _ _ _ replies :: rest =>
    1 + (if 0 < replies.length then countCommentsRecursive replies else 0)
      + countCommentsRecursive rest

/-- Modelled from the spec: `countAll` "recursively sums a node's own
presence plus all descendants" — the total number of nodes of a comment
forest.  Used as the reference measure for `countCommentsRecursive`. -/
def specTotalNodes : List Comment → Nat
  | [] => 0
  | .mk _ _ _ _ _ _ _ _ _ replies :: rest =>
    1 + specTotalNodes replies + specTotalNodes rest

/-- Fetch status of the posts slice: `idle | loading | succeeded |
failed` (`postsSlice.js` line 107). -/
inductive Status where
  | idle
  | loading
  | succeeded
  | failed
deriving DecidableEq, Repr

/-- The state of the posts slice (`postsSlice.js` lines 89–111). -/
structure PostsState where
  posts : List Post
  selectedPost : Option Post
  comments : List Comment
  after : Option String
  isLoadingMore : Bool
  status : Status
  error : Option String

/-- `initialState` of the posts slice (`postsSlice.js` lines 89–111). -/
def initialState : PostsState :=
  { posts := [], selectedPost := none, comments := [], after := none,
    isLoadingMore := false, status := .idle, error := none }

/-- The actions the posts slice reducer handles: the one plain reducer
`clearSelectedPost` and the pending/fulfilled/rejected lifecycle actions
of the five thunks.  A fulfilled fetch action carries its
`{posts, after}` payload (already normalized by the thunk); a rejected
action carries `action.error.message`.  The reducer reads nothing else
from an action — in particular no filter set or request identity. -/
inductive Action where
  | clearSelectedPost
  | fetchPostsPending
  | fetchPostsFulfilled (posts : List Post) (after : Option String)
  | fetchPostsRejected (message : String)
  | loadMorePostsPending
  | loadMorePostsFulfilled (posts : List Post) (after : Option String)
  | loadMorePostsRejected (message : String)
  | fetchPostDetailsPending
  | fetchPostDetailsFulfilled (post : Post) (comments : List Comment)
  | fetchPostDetailsRejected (message : String)
  | searchPostsPending
  | searchPostsFulfilled (posts : List Post) (after : Option String)
  | searchPostsRejected (message : String)
  | loadMoreSearchResultsPending
  | loadMoreSearchResultsFulfilled (posts : List Post) (after : Option String)
  | loadMoreSearchResultsRejected (message : String)

/-- The posts slice reducer (`postsSlice.js` lines 120–234): each case
updates exactly the fields the corresponding Immer handler assigns and
leaves every other field of the draft state unchanged. -/
def postsReducer (state : PostsState) : Action → PostsState
  | .clearSelectedPost =>
    { state with selectedPost := none, comments := [] }
  | .fetchPostsPending =>
    { state with status := .loading, error := none, isLoadingMore := false }
  | .fetchPostsFulfilled posts after =>
    { state with
        status := .succeeded, posts := posts, after := after, error := none }
  | .fetchPostsRejected message =>
    { state with status := .failed, error := some message }
  | .loadMorePostsPending =>
    { state with isLoadingMore := true, error := none }
  | .loadMorePostsFulfilled posts after =>
    { state with
        isLoadingMore := false, posts := state.posts ++ posts,
        after := after, error := none }
  | .loadMorePostsRejected message =>
    { state with isLoadingMore := false, error := some message }
  | .fetchPostDetailsPending =>
    { state with status := .loading, error := none }
  | .fetchPostDetailsFulfilled post comments =>
    { state with
        status := .succeeded, selectedPost := some post,
        comments := comments, error := none }
  | .fetchPostDetailsRejected message =>
    { state with status := .failed, error := some message }
  | .searchPostsPending =>
    { state with status := .loading, error := none, isLoadingMore := false }
  | .searchPostsFulfilled posts after =>
    { state with
        status := .succeeded, posts := posts, after := after, error := none }
  | .searchPostsRejected message =>
    { state with status := .failed, error := some message }
  | .loadMoreSearchResultsPending =>
    { state with isLoadingMore := true, error := none }
  | .loadMoreSearchResultsFulfilled posts after =>
    { state with
        isLoadingMore := false, posts := state.posts ++ posts,
        after := after, error := none }
  | .loadMoreSearchResultsRejected message =>
    { state with isLoadingMore := false, error := some message }

/-- Post age in hours used by the `rising` comparator (`App.js`,
`sortedPosts` case `rising`): `Math.max(1, (now - a.created) / 3600)`. -/
def risingAge (now : ℚ) (p : Post) : ℚ :=
  max 1 ((now - (p.created : ℚ)) / 3600)

/-- The `recencyBonus` of the `rising` comparator: `ageA < 1 ? 2 : 1`,
evaluated on the already-clamped age. -/
def risingRecencyBonus (now : ℚ) (p : Post) : ℚ :=
  if risingAge now p < 1 then 2 else 1

/-- The `rising` value of a post: `(a.ups / ageA) * recencyBonusA`. -/
def risingScore (now : ℚ) (p : Post) : ℚ :=
  ((p.ups : ℚ) / risingAge now p) * risingRecencyBonus now p

/-- Post age in hours used by the `hot` comparator
(`Math.max(1, (nowHot - a.created) / 3600)`, the divisor base of the
age penalty `Math.pow(ageInHoursA, 1.5)`). -/
def hotAgeInHours (now : ℚ) (p : Post) : ℚ :=
  max 1 ((now - (p.created : ℚ)) / 3600)

/-- The argument fed into `Math.log10` by the `hot` comparator:
`Math.max(1, a.ups)`. -/
def hotLog10Arg (p : Post) : Int :=
  max 1 p.ups

/-- The ordering realized by the `top` comparator `b.ups - a.ups`:
a stable sort with that comparator places `a` before `b` exactly when
the comparator is non-positive, i.e. when `b.ups ≤ a.ups`. -/
def topLe (a b : Post) : Bool :=
  decide (b.ups ≤ a.ups)

/-- `sortedPosts` for `sortBy = 'top'` (`App.js` lines 619–629):
`[...filteredPosts].sort((a, b) => b.ups - a.ups)`, embedded as a stable
merge sort by `topLe`. -/
def sortedPostsTop (posts : List Post) : List Post :=
  posts.mergeSort topLe

/-- A post with the given identifier, upvote count, score and creation
time, every other field empty; used for concrete test inputs. -/
def mkPost (id : String) (ups score created : Int) : Post :=
  { id := some id, title := "", author := "", subreddit := "",
    score := score, ups := ups, downs := 0, numComments := 0,
    created := created, thumbnail := none, url := none, selftext := "",
    selftext_html := "", permalink := "", is_video := false,
    videoType := none, videoUrl := none, videoWidth := none,
    videoHeight := none, videoDuration := none, media := none,
    preview := none }

/-- A comment with the given identifier and replies, every other field
empty; used for concrete comment trees. -/
def mkComment (id : String) (replies : List Comment) : Comment :=
  Comment.mk id none "" "" 0 0 0 0 none replies

/-- The synthetic 3-level tree of the spec's `countAll` round-trip:
one root with two children, the first child carrying one grandchild. -/
def exampleTree : List Comment :=
  [mkComment "root" [mkComment "child1" [mkComment "grandchild" []], mkComment "child2" []]]

/-- A post 30 minutes old at `now = 7200` with 100 upvotes and score
100, for exercising the rising recency bonus. -/
def youngPost : Post :=
  mkPost "young" 100 100 5400

/-- C7: the aggregate comment count function returns the total number of
nodes of the forest (each node plus all of its descendants), and on the
3-level tree with 1 root, 2 children and 1 grandchild it returns 4. -/
theorem countCommentsRecursive_counts_all_nodes :
    (∀ l : List Comment, countCommentsRecursive l = specTotalNodes l) ∧
      countCommentsRecursive exampleTree = 4 := by
  have key : ∀ l : List Comment, countCommentsRecursive l = specTotalNodes l := by
    intro l
    induction l using countCommentsRecursive.induct with
    | case1 => simp [countCommentsRecursive, specTotalNodes]
    | case2 i a b bh c s u d e replies rest ih1 ih2 =>
      simp only [countCommentsRecursive, specTotalNodes]
      split
      · omega
      · have h : replies = [] := by
          cases replies with
          | nil => rfl
          | cons c cs => simp at *
        subst h
        simp [specTotalNodes]
        omega
  refine ⟨key, ?_⟩
  rw [key]
  simp [exampleTree, mkComment, specTotalNodes]

/-- C8: the comment tree builder keeps exactly the `t1` children, in
source order, each mapped by the per-node conversion, whose `replies`
are built recursively from the nested payload when present and are empty
otherwise. -/
theorem parseComments_filter_map_shape :
    (∀ l : List RawChild,
        parseComments l = (l.filter fun c => c.kind == "t1").map parseOneComment) ∧
      (∀ (k i : String) (a : Option String) (b bh : String) (c s u d : Int)
          (e : Option Int) (children : List RawChild),
        (parseOneComment (.mk k (.mk i a b bh c s u d e (some (.mk children))))).replies
            = parseComments children ∧
          (parseOneComment (.mk k (.mk i a b bh c s u d e none))).replies = []) := by
  constructor
  · intro l
    induction l with
    | nil => simp [parseComments]
    | cons child rest ih =>
      match child with
      | .mk kind (.mk i a b bh c s u d e replies) =>
        rw [parseComments.eq_def]
        by_cases hk : kind = "t1"
        · simp [hk, parseOneComment, ih, RawChild.kind]
        · simp [hk, ih, RawChild.kind]
  · intro k i a b bh c s u d e children
    exact ⟨rfl, rfl⟩

/-- C9: the quantities the `hot` and `rising` comparators divide by or
feed into `log10` are clamped to at least 1 for every post, including
zero and negative scores, and the rising values are totally ordered, so
the ranking never meets an undefined value. -/
theorem ranking_clamps_make_total :
    ∀ (now : ℚ) (p q : Post),
      1 ≤ risingAge now p ∧ 1 ≤ hotAgeInHours now p ∧
        (1 : ℤ) ≤ hotLog10Arg p ∧
        (risingScore now p ≤ risingScore now q ∨
          risingScore now q ≤ risingScore now p) := by
  intro now p q
  exact ⟨le_max_left _ _, le_max_left _ _, le_max_left _ _, le_total _ _⟩

/-- C1 evidence: the `rising` recency bonus is dead code — the age is
clamped to at least 1 before the `ageA < 1` test, so the bonus is 1 for
every post; a 30-minute-old post with 100 upvotes gets value 100, not
the doubled 200 its own comment ("Double score if less than 1 hour
old") and the spec promise. -/
theorem rising_recency_bonus_dead :
    (∀ (now : ℚ) (p : Post), risingRecencyBonus now p = 1) ∧
      risingScore 7200 youngPost = 100 ∧
        ¬ risingScore 7200 youngPost = 2 * ((100 : ℚ) / 1) := by
  have bonus : ∀ (now : ℚ) (p : Post), risingRecencyBonus now p = 1 := by
    intro now p
    have h : ¬ risingAge now p < 1 := not_lt.mpr (le_max_left 1 _)
    simp [risingRecencyBonus, h]
  have age : risingAge 7200 youngPost = 1 := by
    have : ((7200 : ℚ) - ((5400 : Int) : ℚ)) / 3600 = 1 / 2 := by norm_num
    simp [risingAge, youngPost, mkPost, this]
    norm_num
  refine ⟨bonus, ?_, ?_⟩
  · rw [risingScore, bonus, age]
    norm_num [youngPost, mkPost]
  · rw [risingScore, bonus, age]
    norm_num [youngPost, mkPost]

/-- Evaluation of a stable merge sort on a two-element list. -/
theorem mergeSort_pair {α : Type} (le : α → α → Bool) (a b : α) :
    List.mergeSort [a, b] le = if le a b then [a, b] else [b, a] := by
  rw [List.mergeSort]
  simp [List.splitInTwo, List.splitAt, List.splitAt.go, List.merge, List.mergeSort]

/-- The `topLe` comparator relation is transitive. -/
theorem topLe_trans : ∀ (a b c : Post), topLe a b → topLe b c → topLe a c := by
  intro a b c hab hbc
  simp only [topLe, decide_eq_true_eq] at *
  omega

/-- The `topLe` comparator relation is total. -/
theorem topLe_total : ∀ (a b : Post), topLe a b || topLe b a := by
  intro a b
  simp only [topLe, Bool.or_eq_true, decide_eq_true_eq]
  omega

/-- A post with 10 net score but only 1 raw upvote. -/
def highScoreLowUps : Post :=
  mkPost "hslu" 1 10 0

/-- A post with 5 net score but 20 raw upvotes. -/
def lowScoreHighUps : Post :=
  mkPost "lshu" 20 5 0

/-- C3 counterexample: the `top` comparator sorts by the raw upvote
count `ups`, not by the canonical `score`; on two posts whose `score`
and `ups` orders disagree, the sorted output has an adjacent pair whose
scores ascend. -/
theorem top_sort_not_by_score_cx :
    sortedPostsTop [highScoreLowUps, lowScoreHighUps]
        = [lowScoreHighUps, highScoreLowUps] ∧
      ¬ ((sortedPostsTop [highScoreLowUps, lowScoreHighUps]).Chain'
          fun a b => b.score ≤ a.score) := by
  have h : sortedPostsTop [highScoreLowUps, lowScoreHighUps]
      = [lowScoreHighUps, highScoreLowUps] := by
    rw [sortedPostsTop, mergeSort_pair]
    simp [topLe, highScoreLowUps, lowScoreHighUps, mkPost]
  refine ⟨h, ?_⟩
  rw [h]
  simp [highScoreLowUps, lowScoreHighUps, mkPost]

/-- C3 amended: for every input list, every adjacent pair `(a, b)` of
the `top`-sorted output satisfies `a.ups ≥ b.ups` — descending raw
upvote count, the key the comparator `b.ups - a.ups` actually reads. -/
theorem top_sort_ups_descending :
    ∀ posts : List Post,
      (sortedPostsTop posts).Chain' fun a b => b.ups ≤ a.ups := by
  intro posts
  have h := List.sorted_mergeSort topLe_trans topLe_total posts
  exact List.Pairwise.chain'
    (h.imp fun hab => by simpa [topLe, decide_eq_true_eq] using hab)

/-- The first page of the concrete stale-response scenario: the posts
and cursor returned by the superseded fetch for filter set A. -/
def pagePostA : Post :=
  mkPost "a1" 1 1 0

/-- The page applied first in the concrete stale-response scenario: the
posts and cursor returned by the current fetch for filter set B. -/
def pagePostB : Post :=
  mkPost "b1" 2 2 0

/-- The feed state after dispatching, in order: `fetchPosts.pending`
for filter set A, `fetchPosts.pending` for filter set B (the filters
changed), `fetchPosts.fulfilled` with B's page, and finally the
late-arriving `fetchPosts.fulfilled` with A's page. -/
def staleScenarioFinal : PostsState :=
  postsReducer
    (postsReducer
      (postsReducer (postsReducer initialState .fetchPostsPending)
        .fetchPostsPending)
      (.fetchPostsFulfilled [pagePostB] (some "cursorB")))
    (.fetchPostsFulfilled [pagePostA] (some "cursorA"))

/-- C2 counterexample: the late-arriving resolution of A's fetch does
overwrite B's already-applied post list and cursor — the final state
holds A's posts and cursor, not B's. -/
theorem stale_response_overwrites_cx :
    staleScenarioFinal.posts = [pagePostA] ∧
      staleScenarioFinal.posts ≠ [pagePostB] ∧
        staleScenarioFinal.after = some "cursorA" ∧
          staleScenarioFinal.after ≠ some "cursorB" := by
  refine ⟨rfl, ?_, rfl, ?_⟩
  · simp [staleScenarioFinal, postsReducer, initialState, pagePostA, pagePostB, mkPost]
  · simp [staleScenarioFinal, postsReducer, initialState]

/-- C2 amended: the slice performs no stale-response check — every
`fetchPosts.fulfilled` payload is applied unconditionally, so after
`fulfilled(B)` followed by the late `fulfilled(A)` the feed holds A's
posts and cursor (last-resolved wins), for every prior state. -/
theorem fetchPosts_fulfilled_last_write_wins :
    ∀ (s : PostsState) (pB : List Post) (cB : Option String)
      (pA : List Post) (cA : Option String),
      (postsReducer (postsReducer s (.fetchPostsFulfilled pB cB))
            (.fetchPostsFulfilled pA cA)).posts = pA ∧
        (postsReducer (postsReducer s (.fetchPostsFulfilled pB cB))
            (.fetchPostsFulfilled pA cA)).after = cA :=
  fun _ _ _ _ _ => ⟨rfl, rfl⟩

/-- C4: a successful first-page fetch followed by a successful
load-more yields exactly the first page concatenated with the second
(no de-duplication), and the stored cursor is the second page's. -/
theorem pagination_appends_pages :
    ∀ (s : PostsState) (p1 : List Post) (c1 : Option String)
      (p2 : List Post) (c2 : Option String),
      (postsReducer (postsReducer s (.fetchPostsFulfilled p1 c1))
            (.loadMorePostsFulfilled p2 c2)).posts = p1 ++ p2 ∧
        (postsReducer (postsReducer s (.fetchPostsFulfilled p1 c1))
            (.loadMorePostsFulfilled p2 c2)).after = c2 :=
  fun _ _ _ _ _ => ⟨rfl, rfl⟩

/-- C5: a failed load-more changes only the loading flag and the error
message; in particular the post list and the pagination cursor are left
exactly as they were, for every prior state and every error message. -/
theorem loadMore_rejected_preserves_feed :
    ∀ (s : PostsState) (msg : String),
      postsReducer s (.loadMorePostsRejected msg)
        = { s with isLoadingMore := false, error := some msg } :=
  fun _ _ => rfl

/-- C10: `clearSelectedPost` sets the selected post to `null` and the
comments to the empty list and leaves every other field of the state
unchanged, for every starting state. -/
theorem clearSelectedPost_frame :
    ∀ s : PostsState,
      postsReducer s .clearSelectedPost
        = { s with selectedPost := none, comments := [] } :=
  fun _ => rfl

/-- A raw post record that carries no identifier at all. -/
def rawRecordNoId : RawPost :=
  { id := none, title := "orphan", author := "", subreddit := "",
    score := 0, ups := 0, downs := 0, num_comments := 0,
    created_utc := 0, thumbnail := none, url := none, selftext := "",
    selftext_html := "", permalink := "", is_video := false,
    media := none, preview := none }

/-- C6 counterexample: a raw record with no identifier is not dropped —
the normalization pipeline still emits one normalized post for it, whose
identifier is `null`. -/
theorem normalization_keeps_idless_record_cx :
    normalizePage [rawRecordNoId] ≠ [] ∧
      (normalizePage [rawRecordNoId]).length = 1 ∧
        (normalizePage [rawRecordNoId]).map Post.id = [none] := by
  refine ⟨?_, rfl, rfl⟩
  simp [normalizePage]

/-- C6 amended: the pipeline `posts.map(normalizePost)` drops nothing —
it emits exactly one normalized post per raw record, in order, and the
identifier (including an absent one) is copied through unchanged. -/
theorem normalizePage_one_per_record :
    ∀ raw : List RawPost,
      (normalizePage raw).length = raw.length ∧
        (normalizePage raw).map Post.id = raw.map RawPost.id := by
  intro raw
  constructor
  · simp [normalizePage]
  · have h : Post.id ∘ normalizePost = RawPost.id := funext fun _ => rfl
    simp [normalizePage, List.map_map, h]

end Reddit
